import Mathlib

/-!
Verification of the BESC-TRENDING bot against its specification.

The repository consists of several near-duplicate variants of one ~150-line
script.  The variants relevant here:

* `main.js` (first script in the file, lines 1-149) — called `V1` below:
  `safeFloat`, `fmtUsd`, `fetchPairs`, `fetchTokenInfo`, `computeTrending`,
  `formatTrending`, `postTrending`.
* `main.js` (second script, lines 172-303) — called `V2` below: a variant
  whose `fetchPairs` tolerates two JSON envelope shapes.
* `main.js` (third script, lines 304-451) — called `V3` below: the
  GeckoTerminal variant whose `formatTrending` maintains the `lastVolumes`
  burst snapshot.
* `src/unnamed/part_002` — called `P2`: its `fetchPairs` has no try/catch.
* `src/unnamed/part_003` — called `P3`: price-change derivation.
* `src/unnamed/part_004` — called `P4`: parallel token-info variant.

JavaScript numbers are modelled as `ℚ` (finite doubles; `NaN` / missing
fields are modelled as `none` of `Option ℚ`).  JavaScript's stable
`Array.prototype.sort` with comparator `(a, b) => key(b) - key(a)` is
modelled by `List.insertionSort` with the relation `key b ≤ key a`:
a stable sort for a total preorder is unique, so any faithful model of the
JS sort yields this list.
-/

namespace BescTrending

/-! ## Numeric coercions -/

/-- JS `safeFloat` from `main.js` lines 20-23: `Number(x)` guarded by
`Number.isFinite`, non-finite results become 0.  A missing or non-finite
field is `none`. -/
def safeFloat (x : Option ℚ) : ℚ := x.getD 0

/-- The JS pattern `Number(x || 0)` / `x ?? 0` applied to a possibly missing
numeric field: missing (or `NaN`, or falsy `0`) yields 0, otherwise the
value itself. -/
def numOr0 (x : Option ℚ) : ℚ := x.getD 0

/-! ## Currency formatting (`fmtUsd`)

`toFixed2` models ECMA-262 `Number.prototype.toFixed(2)`: strip the sign,
pick the integer `m` closest to `100 * |q|` (ties upward), and render
`m` cents with two decimals. -/

/-- Render `a` cents as a fixed two-decimal string, e.g. `fixed2pos 99900 =
"999.00"`. -/
def fixed2pos (a : ℕ) : String :=
  toString (a / 100) ++ "." ++ (if a % 100 < 10 then (r"0") else (r"")) ++ toString (a % 100)

/-- Model of JS `q.toFixed(2)`. -/
def toFixed2 (q : ℚ) : String :=
  if q < 0 then (r"-") ++ fixed2pos (⌊-q * 100 + 1 / 2⌋).toNat
  else fixed2pos (⌊q * 100 + 1 / 2⌋).toNat

/-- JS `fmtUsd` from `main.js` lines 25-30 (variant V1): zero/negative guard,
then the M / K / plain bands chosen with `>=`. -/
def fmtUsd (n : ℚ) : String :=
  if n ≤ 0 then (r"$0.00")
  else if 1000000 ≤ n then (r"$") ++ toFixed2 (n / 1000000) ++ "M"
  else if 1000 ≤ n then (r"$") ++ toFixed2 (n / 1000) ++ "K"
  else (r"$") ++ toFixed2 n

/-- JS `fmtUsd` from `main.js` lines 191-196 (variant V2): `Number(n) || 0`
then the three bands; on an already-numeric input the coercion is the
identity. -/
def fmtUsdNum (n : ℚ) : String :=
  if 1000000 ≤ n then (r"$") ++ toFixed2 (n / 1000000) ++ "M"
  else if 1000 ≤ n then (r"$") ++ toFixed2 (n / 1000) ++ "K"
  else (r"$") ++ toFixed2 n

/-- The three abbreviation bands named by the spec ("$X.XXM", "$X.XXK",
"$X.XX"). -/
inductive Band where
  | mega
  | kilo
  | plain
deriving DecidableEq

/-- The spec's ≥ boundary rule: which band a number selects.  Follows the
spec's words ("`$X.XXM` ≥1,000,000; `$X.XXK` ≥1,000; `$X.XX` otherwise"). -/
def bandSel (n : ℚ) : Band :=
  if 1000000 ≤ n then Band.mega else if 1000 ≤ n then Band.kilo else Band.plain

/-- Render a magnitude in a given band, following the spec's band formats. -/
def bandRender (b : Band) (n : ℚ) : String :=
  match b with
  | Band.mega => "$" ++ toFixed2 (n / 1000000) ++ "M"
  | Band.kilo => "$" ++ toFixed2 (n / 1000) ++ "K"
  | Band.plain => "$" ++ toFixed2 n

theorem toFixed2_natCast (k : ℕ) : toFixed2 (k : ℚ) = fixed2pos (k * 100) := by
  have h1 : ¬ ((k : ℚ) < 0) := not_lt.mpr (by positivity)
  have h2 : ⌊(k : ℚ) * 100 + 1 / 2⌋ = (k : ℤ) * 100 := by
    rw [Int.floor_eq_iff]
    push_cast
    constructor <;> nlinarith
  rw [toFixed2, if_neg h1, h2]
  congr 1

/-- C2: for every number `n`, both cited `fmtUsd` variants return exactly
the band format selected by the ≥ boundary rule (the V1 variant clamps the
displayed magnitude of non-positive inputs to 0, still inside the plain
band), and the three boundary values format as the spec demands. -/
theorem c2_fmtUsd_band_selection (n : ℚ) :
    fmtUsd n = bandRender (bandSel n) (max n 0) ∧
    fmtUsdNum n = bandRender (bandSel n) n ∧
    fmtUsd 1000 = "$1.00K" ∧ fmtUsd 999 = "$999.00" ∧ fmtUsd 1000000 = "$1.00M" := by
  have h1000 : fmtUsd 1000 = "$1.00K" := by
    have e : (1000 : ℚ) / 1000 = ((1 : ℕ) : ℚ) := by norm_num
    rw [fmtUsd, if_neg (by norm_num), if_neg (by norm_num), if_pos (by norm_num), e,
      toFixed2_natCast]
    decide
  have h999 : fmtUsd 999 = "$999.00" := by
    have e : (999 : ℚ) = ((999 : ℕ) : ℚ) := by norm_num
    rw [fmtUsd, if_neg (by norm_num), if_neg (by norm_num), if_neg (by norm_num), e,
      toFixed2_natCast]
    decide
  have h1m : fmtUsd 1000000 = "$1.00M" := by
    have e : (1000000 : ℚ) / 1000000 = ((1 : ℕ) : ℚ) := by norm_num
    rw [fmtUsd, if_neg (by norm_num), if_pos (by norm_num), e, toFixed2_natCast]
    decide
  refine ⟨?_, ?_, h1000, h999, h1m⟩
  · by_cases hz : n ≤ 0
    · have hm : max n 0 = 0 := max_eq_right hz
      have hb : bandSel n = Band.plain := by
        rw [bandSel, if_neg (by linarith), if_neg (by linarith)]
      have e0 : (0 : ℚ) = ((0 : ℕ) : ℚ) := by norm_num
      rw [fmtUsd, if_pos hz, hb, bandRender, hm, e0, toFixed2_natCast]
      decide
    · have hm : max n 0 = n := max_eq_left (by linarith)
      by_cases hM : 1000000 ≤ n
      · rw [fmtUsd, if_neg hz, if_pos hM, bandSel, if_pos hM, bandRender, hm]
      · by_cases hK : 1000 ≤ n
        · rw [fmtUsd, if_neg hz, if_neg hM, if_pos hK, bandSel, if_neg hM, if_pos hK,
            bandRender, hm]
        · rw [fmtUsd, if_neg hz, if_neg hM, if_neg hK, bandSel, if_neg hM, if_neg hK,
            bandRender, hm]
  · by_cases hM : 1000000 ≤ n
    · rw [fmtUsdNum, if_pos hM, bandSel, if_pos hM, bandRender]
    · by_cases hK : 1000 ≤ n
      · rw [fmtUsdNum, if_neg hM, if_pos hK, bandSel, if_neg hM, if_pos hK, bandRender]
      · rw [fmtUsdNum, if_neg hM, if_neg hK, bandSel, if_neg hM, if_neg hK, bandRender]

/-! ## Typed data model

`Pool`/`Pair` and `Trade` records as read by the scripts from the parsed
JSON; a missing or non-numeric field is `none`. -/

structure Token where
  symbol : Option String
  contract : String
deriving DecidableEq

structure Pair where
  pairId : String
  token0 : Token
  token1 : Token
  liquidityUsd : Option ℚ
  transactions24h : Option ℕ
  volume24h : Option ℚ
deriving DecidableEq

/-- A HyperCharts transaction (`t` in the scripts): `t.pair`, `t.time`
(unix seconds, possibly fractional), `t.amountIn`, `t.amountOut`. -/
structure Tx where
  txPair : Option String
  time : ℚ
  amountIn : Option ℚ
  amountOut : Option ℚ
deriving DecidableEq

/-- The `/token/info/` payload part used by the scripts. -/
structure TokenInfo where
  transactions : Option (List Tx)
deriving DecidableEq

/-- JS `String.prototype.toLowerCase` on the identifier strings used here. -/
def jsToLower (s : String) : String := String.mk (s.data.map Char.toLower)

/-! ## V1 `computeTrending` (`main.js` lines 51-98) -/

/-- JS `info?.transactions` with the `if (!txList) return;` guard of
`main.js` lines 65-66: a missing info or missing transaction list
contributes nothing. -/
def txListOf (i : Option TokenInfo) : List Tx :=
  match i with
  | some info => info.transactions.getD []
  | none => []

/-- JS `t.pair?.toLowerCase() === pair.pair.toLowerCase()` (`main.js` line 68). -/
def matchesPairV1 (pr : Pair) (t : Tx) : Bool :=
  match t.txPair with
  | some pid => jsToLower pid == jsToLower pr.pairId
  | none => false

/-- JS `DateTime.fromSeconds(Math.floor(t.time)) >= cutoff` (`main.js` line 69). -/
def isRecentV1 (cutoff : ℚ) (t : Tx) : Bool := decide (cutoff ≤ (⌊t.time⌋ : ℚ))

/-- The merged recent trades for one pair (`main.js` lines 60-74): token0's
and token1's transaction lists concatenated, restricted to this pair within
the lookback window. -/
def tradesForV1 (getInfo : String → Option TokenInfo) (cutoff : ℚ) (pr : Pair) : List Tx :=
  (txListOf (getInfo pr.token0.contract) ++ txListOf (getInfo pr.token1.contract)).filter
    (fun t => matchesPairV1 pr t && isRecentV1 cutoff t)

/-- JS `trades.reduce((sum, t) => sum + safeFloat(t.amountIn), 0)`
(`main.js` line 78); also `Number(tx.amountIn || 0)` sums in P2/P4, which
coerce a missing amount to 0 the same way. -/
def sumAmountIn (ts : List Tx) : ℚ := ts.foldl (fun s t => s + safeFloat t.amountIn) 0

/-- An entry of V1's `results` list (`main.js` lines 79-84). -/
structure Cand1 where
  pair : Pair
  volume : ℚ
  trades : ℕ
  score : ℚ
deriving DecidableEq

/-- One iteration of the V1 loop (`main.js` lines 56-85): skip the pair if
it has no recent trades, otherwise build the scored record with
`score = volume * 0.7 + trades.length * 15`. -/
def candOfV1 (getInfo : String → Option TokenInfo) (cutoff : ℚ) (pr : Pair) : Option Cand1 :=
  let trades := tradesForV1 getInfo cutoff pr
  if trades.isEmpty then none
  else some { pair := pr, volume := sumAmountIn trades, trades := trades.length,
              score := sumAmountIn trades * (7 / 10) + (trades.length : ℚ) * 15 }

/-- V1's `results` list in pair order. -/
def candsV1 (pairs : List Pair) (getInfo : String → Option TokenInfo) (cutoff : ℚ) :
    List Cand1 :=
  pairs.filterMap (candOfV1 getInfo cutoff)

/-- JS `results.sort((a, b) => b.score - a.score)` (`main.js` line 87): the
stable JS sort by descending score, and nothing else.  A stable sort for a
total preorder has a unique result, here given by insertion sort. -/
def rankByScore (l : List Cand1) : List Cand1 :=
  List.insertionSort (fun a b => b.score ≤ a.score) l

/-- JS `pairs.sort((a, b) => safeFloat(b.liquidityUsd) - safeFloat(a.liquidityUsd))`
(`main.js` line 91); P3 and P4 sort by `(b.liquidityUsd ?? 0) -
(a.liquidityUsd ?? 0)`, the same function on this model. -/
def sortPairsByLiq (l : List Pair) : List Pair :=
  List.insertionSort (fun a b => safeFloat b.liquidityUsd ≤ safeFloat a.liquidityUsd) l

/-- A fallback entry (`main.js` line 93). -/
def fallbackItemV1 (p : Pair) : Cand1 :=
  { pair := p, volume := 0, trades := p.transactions24h.getD 0, score := 0 }

structure TrendingResult where
  trending : List Cand1
  isFallback : Bool
deriving DecidableEq

/-- JS `computeTrending` of `main.js` lines 51-98, as a function of the pair
list, the fetched token infos, the window cutoff and `TRENDING_SIZE`. -/
def computeTrendingV1 (pairs : List Pair) (getInfo : String → Option TokenInfo)
    (cutoff : ℚ) (n : ℕ) : TrendingResult :=
  let results := candsV1 pairs getInfo cutoff
  if results.isEmpty then
    { trending := ((sortPairsByLiq pairs).take n).map fallbackItemV1, isFallback := true }
  else
    { trending := (rankByScore results).take n, isFallback := false }

/-! ## Generic facts about the sort model -/

theorem filter_orderedInsert_key {α : Type} (k : α → ℚ) (s : ℚ) (x : α) (l : List α) :
    (List.orderedInsert (fun a b => k b ≤ k a) x l).filter (fun c => decide (k c = s)) =
      (x :: l).filter (fun c => decide (k c = s)) := by
  induction l with
  | nil => rfl
  | cons y ys ih =>
    by_cases h : k y ≤ k x
    · rw [List.orderedInsert, if_pos h]
    · rw [List.orderedInsert, if_neg h]
      by_cases hx : k x = s
      · have hy : ¬ (k y = s) := by
          intro e
          exact h (le_of_eq (e.trans hx.symm))
        simp only [List.filter_cons, ih, decide_eq_true_eq, hx, hy]
        simp
      · by_cases hy : k y = s
        · simp only [List.filter_cons, ih, decide_eq_true_eq, hx, hy]
          simp
        · simp only [List.filter_cons, ih, decide_eq_true_eq, hx, hy]
          simp

theorem filter_insertionSort_key {α : Type} (k : α → ℚ) (s : ℚ) (l : List α) :
    (List.insertionSort (fun a b => k b ≤ k a) l).filter (fun c => decide (k c = s)) =
      l.filter (fun c => decide (k c = s)) := by
  induction l with
  | nil => rfl
  | cons x xs ih =>
    rw [List.insertionSort, filter_orderedInsert_key, List.filter_cons, List.filter_cons, ih]

theorem pairwise_insertionSort_key {α : Type} (k : α → ℚ) (l : List α) :
    List.Pairwise (fun a b => k b ≤ k a) (List.insertionSort (fun a b => k b ≤ k a) l) := by
  haveI : IsTotal α (fun a b => k b ≤ k a) := ⟨fun a b => le_total (k b) (k a)⟩
  haveI : IsTrans α (fun a b => k b ≤ k a) := ⟨fun _ _ _ h1 h2 => le_trans h2 h1⟩
  exact List.sorted_insertionSort _ l

/-- C6 counterexample: two candidates with equal score where the one with
strictly smaller `liquidityUsd` comes first in the input; the code's sort
(`b.score - a.score` only) keeps it first, so the claimed liquidity
tie-break does not happen. -/
def c6candLow : Cand1 :=
  { pair := { pairId := "a", token0 := ⟨none, "c0"⟩, token1 := ⟨none, "c1"⟩,
              liquidityUsd := some 1, transactions24h := none, volume24h := none },
    volume := 0, trades := 1, score := 10 }

/-- The equal-score, higher-liquidity candidate for the C6 counterexample. -/
def c6candHigh : Cand1 :=
  { pair := { pairId := "b", token0 := ⟨none, "c2"⟩, token1 := ⟨none, "c3"⟩,
              liquidityUsd := some 5, transactions24h := none, volume24h := none },
    volume := 0, trades := 1, score := 10 }

/-- C6 is false as stated: on two equal-score candidates the ranking keeps
input order even though the second has strictly greater `liquidityUsd`,
so ties are not broken by descending liquidity. -/
theorem c6_counterexample :
    rankByScore [c6candLow, c6candHigh] = [c6candLow, c6candHigh] ∧
    c6candLow.score = c6candHigh.score ∧
    safeFloat c6candLow.pair.liquidityUsd < safeFloat c6candHigh.pair.liquidityUsd := by
  refine ⟨by decide, by decide, by decide⟩

/-- C6 (amended): `rank` orders candidates by weakly descending score and
is a permutation of its input; candidates of equal score keep their
relative input order (JS sort stability) — no liquidity or identity
tie-break is applied.  The ordering is still deterministic because `rank`
is a function of the input list. -/
theorem c6_rank_by_score (l : List Cand1) (s : ℚ) :
    List.Perm (rankByScore l) l ∧
    List.Pairwise (fun a b : Cand1 => b.score ≤ a.score) (rankByScore l) ∧
    (rankByScore l).filter (fun c => decide (c.score = s)) =
      l.filter (fun c => decide (c.score = s)) := by
  refine ⟨List.perm_insertionSort _ l, ?_, ?_⟩
  · exact pairwise_insertionSort_key (fun c : Cand1 => c.score) l
  · exact filter_insertionSort_key (fun c : Cand1 => c.score) s l

/-! ## P3 `computeTrending` (`src/unnamed/part_003` lines 49-93) -/

/-- A trade from P3's `/transactions/` endpoint: `amountUsd`, `priceUsd`. -/
structure TxU where
  amountUsd : Option ℚ
  priceUsd : Option ℚ
deriving DecidableEq

/-- JS `Number(txs[0]?.priceUsd || 0)` (P3 line 62): the price of the *first*
trade of the list, 0 when the list is empty or the price missing. -/
def firstPriceP3 (txs : List TxU) : ℚ :=
  match txs.head? with
  | some t => numOr0 t.priceUsd
  | none => 0

/-- JS `Number(txs[txs.length - 1]?.priceUsd || 0)` (P3 line 63). -/
def lastPriceP3 (txs : List TxU) : ℚ :=
  match txs.getLast? with
  | some t => numOr0 t.priceUsd
  | none => 0

/-- JS `firstPrice > 0 ? ((lastPrice / firstPrice) - 1) * 100 : 0` (P3 line 64). -/
def priceChangeP3 (txs : List TxU) : ℚ :=
  if 0 < firstPriceP3 txs then (lastPriceP3 txs / firstPriceP3 txs - 1) * 100 else 0

/-- Number of trades with a parsable price — vocabulary of the spec
sentence "if fewer than 2 trades have a parsable price". -/
def pricedCount (txs : List TxU) : ℕ := (txs.filter (fun t => t.priceUsd.isSome)).length

/-- An entry of P3's `scored` list (P3 lines 67-73). -/
structure Cand3 where
  score : ℚ
  pair : Pair
  vol : ℚ
  txs : ℕ
  priceChange : ℚ
deriving DecidableEq

/-- One iteration of the P3 loop (P3 lines 53-74): low-liquidity skip,
short-window volume with 24h fallback, no-activity skip, then the scored
record with `score = finalVol * 0.5 + txs.length * 15 + |priceChange| * 40`. -/
def candOfP3 (getTxs : String → List TxU) (p : Pair) : Option Cand3 :=
  if numOr0 p.liquidityUsd < 100 then none
  else
    let txs := getTxs p.pairId
    let shortVol := txs.foldl (fun s t => s + numOr0 t.amountUsd) 0
    let finalVol := if 0 < shortVol then shortVol else numOr0 p.volume24h
    if finalVol ≤ 0 ∧ txs.length = 0 then none
    else some { score := finalVol * (1 / 2) + (txs.length : ℚ) * 15 + |priceChangeP3 txs| * 40,
                pair := p, vol := finalVol,
                txs := if txs.length = 0 then p.transactions24h.getD 0 else txs.length,
                priceChange := priceChangeP3 txs }

/-- JS `scored.sort((a, b) => b.score - a.score)` (P3 line 76). -/
def rankByScoreP3 (l : List Cand3) : List Cand3 :=
  List.insertionSort (fun a b => b.score ≤ a.score) l

/-- A P3 fallback entry (P3 lines 82-88). -/
def fallbackItemP3 (p : Pair) : Cand3 :=
  { score := 0, pair := p, vol := numOr0 p.volume24h,
    txs := p.transactions24h.getD 0, priceChange := 0 }

structure TrendingResultP3 where
  trending : List Cand3
  isFallback : Bool
deriving DecidableEq

/-- JS `computeTrending` of `src/unnamed/part_003` lines 49-93. -/
def computeTrendingP3 (pairs : List Pair) (getTxs : String → List TxU) (n : ℕ) :
    TrendingResultP3 :=
  let scored := pairs.filterMap (candOfP3 getTxs)
  if scored.isEmpty then
    { trending := ((sortPairsByLiq pairs).take n).map fallbackItemP3, isFallback := true }
  else
    { trending := (rankByScoreP3 scored).take n, isFallback := false }

/-! ## C7: price-change derivation -/

theorem forall_mem_take_insertionSort {α : Type} (r : α → α → Prop) [DecidableRel r]
    {P : α → Prop} {l : List α} (h : ∀ a ∈ l, P a) (n : ℕ) :
    ∀ b ∈ (List.insertionSort r l).take n, P b := by
  intro b hb
  exact h b ((List.perm_insertionSort r l).mem_iff.mp (List.mem_of_mem_take hb))

theorem forall_mem_filterMap {α β : Type} {f : α → Option β} {l : List α} {P : β → Prop}
    (h : ∀ a b, f a = some b → P b) : ∀ b ∈ l.filterMap f, P b := by
  intro b hb
  obtain ⟨a, _, ha⟩ := List.mem_filterMap.mp hb
  exact h a b ha

theorem computeTrendingP3_of_empty (pairs : List Pair) (getTxs : String → List TxU) (n : ℕ)
    (he : (pairs.filterMap (candOfP3 getTxs)).isEmpty) :
    computeTrendingP3 pairs getTxs n =
      { trending := ((sortPairsByLiq pairs).take n).map fallbackItemP3, isFallback := true } := by
  simp only [computeTrendingP3]
  rw [if_pos he]

theorem computeTrendingP3_of_nonempty (pairs : List Pair) (getTxs : String → List TxU) (n : ℕ)
    (he : ¬ (pairs.filterMap (candOfP3 getTxs)).isEmpty) :
    computeTrendingP3 pairs getTxs n =
      { trending := (rankByScoreP3 (pairs.filterMap (candOfP3 getTxs))).take n,
        isFallback := false } := by
  simp only [computeTrendingP3]
  rw [if_neg he]

/-- C7 is false as stated: a trade list in which only one trade has a
parsable price can still produce a nonzero `priceChangePct` (here −100,
because the first trade is priced and the last is not). -/
theorem c7_counterexample :
    pricedCount [TxU.mk none (some 5), TxU.mk none none] < 2 ∧
    priceChangeP3 [TxU.mk none (some 5), TxU.mk none none] = -100 ∧
    priceChangeP3 [TxU.mk none (some 5), TxU.mk none none] ≠ 0 := by
  have hf : firstPriceP3 [TxU.mk none (some 5), TxU.mk none none] = 5 := rfl
  have hl : lastPriceP3 [TxU.mk none (some 5), TxU.mk none none] = 0 := rfl
  have hpc : priceChangeP3 [TxU.mk none (some 5), TxU.mk none none] = -100 := by
    rw [priceChangeP3, hf, hl, if_pos (by norm_num)]
    norm_num
  exact ⟨by decide, hpc, by rw [hpc]; norm_num⟩

/-- C7 (amended): the derivation uses the prices of the *first and last
trades of the list* (missing prices coerced to 0), not of the first and
last priced trades.  When the first trade's coerced price is not positive
the result is 0 (never Infinity); when it is positive the result is
`((lastPrice / firstPrice) - 1) * 100` even if fewer than 2 trades have a
parsable price.  Every non-fallback listed item carries exactly this value
for its own fetched trade list, and every fallback item carries 0. -/
theorem c7_price_change_derivation (txs : List TxU) (pairs : List Pair)
    (getTxs : String → List TxU) (n : ℕ) :
    (firstPriceP3 txs ≤ 0 → priceChangeP3 txs = 0) ∧
    (0 < firstPriceP3 txs →
      priceChangeP3 txs = (lastPriceP3 txs / firstPriceP3 txs - 1) * 100) ∧
    ((computeTrendingP3 pairs getTxs n).isFallback = false →
      ∀ c ∈ (computeTrendingP3 pairs getTxs n).trending,
        c.priceChange = priceChangeP3 (getTxs c.pair.pairId)) ∧
    ((computeTrendingP3 pairs getTxs n).isFallback = true →
      ∀ c ∈ (computeTrendingP3 pairs getTxs n).trending, c.priceChange = 0) := by
  refine ⟨?_, ?_, ?_, ?_⟩
  · intro h
    rw [priceChangeP3, if_neg (not_lt.mpr h)]
  · intro h
    rw [priceChangeP3, if_pos h]
  · intro hfb
    by_cases he : (pairs.filterMap (candOfP3 getTxs)).isEmpty
    · rw [computeTrendingP3_of_empty pairs getTxs n he] at hfb
      exact absurd hfb (by simp)
    · rw [computeTrendingP3_of_nonempty pairs getTxs n he]
      refine forall_mem_take_insertionSort _ (forall_mem_filterMap ?_) n
      intro p c hc
      rw [candOfP3] at hc
      by_cases h1 : numOr0 p.liquidityUsd < 100
      · rw [if_pos h1] at hc
        exact absurd hc (by simp)
      · rw [if_neg h1] at hc
        by_cases h2 : ((if 0 < (getTxs p.pairId).foldl (fun s t => s + numOr0 t.amountUsd) 0
              then (getTxs p.pairId).foldl (fun s t => s + numOr0 t.amountUsd) 0
              else numOr0 p.volume24h) ≤ 0 ∧ (getTxs p.pairId).length = 0)
        · simp only [if_pos h2] at hc
          exact absurd hc (by simp)
        · simp only [if_neg h2, Option.some.injEq] at hc
          rw [← hc]
  · intro hfb
    by_cases he : (pairs.filterMap (candOfP3 getTxs)).isEmpty
    · rw [computeTrendingP3_of_empty pairs getTxs n he]
      intro c hc
      obtain ⟨p, _, hp⟩ := List.mem_map.mp hc
      rw [← hp, fallbackItemP3]
    · rw [computeTrendingP3_of_nonempty pairs getTxs n he] at hfb
      exact absurd hfb (by simp)

/-- Concrete pair for the C7 witness. -/
def p3pair : Pair :=
  { pairId := "p", token0 := ⟨none, "c0"⟩, token1 := ⟨none, "c1"⟩,
    liquidityUsd := some 200, transactions24h := none, volume24h := none }

/-- Concrete trade environment for the C7 witness. -/
def p3env : String → List TxU :=
  fun s => if s = "p" then [TxU.mk (some 10) (some 2)] else []

/-- The candidate the C7 witness scenario produces. -/
def p3cand : Cand3 :=
  { score := 20, pair := p3pair, vol := 10, txs := 1, priceChange := 0 }

theorem c7_witness :
    firstPriceP3 [TxU.mk none none] ≤ 0 ∧ priceChangeP3 [TxU.mk none none] = 0 ∧
    0 < firstPriceP3 [TxU.mk (some 10) (some 2)] ∧
    priceChangeP3 [TxU.mk (some 10) (some 2)] =
      (lastPriceP3 [TxU.mk (some 10) (some 2)] / firstPriceP3 [TxU.mk (some 10) (some 2)] - 1)
        * 100 ∧
    (computeTrendingP3 [p3pair] p3env 5).isFallback = false ∧
    p3cand.priceChange = priceChangeP3 (p3env p3cand.pair.pairId) := by
  have h0 : firstPriceP3 [TxU.mk none none] ≤ 0 := le_of_eq rfl
  have h2 : (0 : ℚ) < firstPriceP3 [TxU.mk (some 10) (some 2)] := by
    rw [show firstPriceP3 [TxU.mk (some 10) (some 2)] = 2 from rfl]
    norm_num
  have hpc0 : priceChangeP3 [TxU.mk (some 10) (some 2)] = 0 := by
    rw [(c7_price_change_derivation [TxU.mk (some 10) (some 2)] [] p3env 5).2.1 h2]
    rw [show lastPriceP3 [TxU.mk (some 10) (some 2)] = 2 from rfl,
      show firstPriceP3 [TxU.mk (some 10) (some 2)] = 2 from rfl]
    norm_num
  have hcand : candOfP3 p3env p3pair = some p3cand := by
    have htx : p3env p3pair.pairId = [TxU.mk (some 10) (some 2)] := rfl
    have hsv : List.foldl (fun s t => s + numOr0 t.amountUsd) 0 [TxU.mk (some 10) (some 2)]
        = 10 := by
      simp [numOr0]
    rw [candOfP3, htx]
    rw [if_neg (by rw [show numOr0 p3pair.liquidityUsd = 200 from rfl]; norm_num)]
    simp only [hsv]
    rw [if_pos (show (0 : ℚ) < 10 by norm_num)]
    rw [if_neg (show ¬ ((10 : ℚ) ≤ 0 ∧
      ([TxU.mk (some 10) (some 2)] : List TxU).length = 0) by norm_num)]
    simp only [hpc0]
    norm_num [p3cand]
  have hct : computeTrendingP3 [p3pair] p3env 5 = ⟨[p3cand], false⟩ := by
    have hfm : List.filterMap (candOfP3 p3env) [p3pair] = [p3cand] := by
      simp [List.filterMap_cons, hcand]
    rw [computeTrendingP3_of_nonempty _ _ _ (by rw [hfm]; simp), hfm]
    rfl
  refine ⟨h0, (c7_price_change_derivation [TxU.mk none none] [] p3env 5).1 h0, h2,
    (c7_price_change_derivation [TxU.mk (some 10) (some 2)] [] p3env 5).2.1 h2, ?_, ?_⟩
  · rw [hct]
  · refine (c7_price_change_derivation [] [p3pair] p3env 5).2.2.1 ?_ p3cand ?_
    · rw [hct]
    · rw [hct]
      exact List.mem_singleton.mpr rfl

/-! ## C1: selection and fallback policy -/

theorem computeTrendingV1_of_empty (pairs : List Pair) (getInfo : String → Option TokenInfo)
    (cutoff : ℚ) (n : ℕ) (he : (candsV1 pairs getInfo cutoff).isEmpty) :
    computeTrendingV1 pairs getInfo cutoff n =
      { trending := ((sortPairsByLiq pairs).take n).map fallbackItemV1, isFallback := true } := by
  simp only [computeTrendingV1]
  rw [if_pos he]

theorem computeTrendingV1_of_nonempty (pairs : List Pair) (getInfo : String → Option TokenInfo)
    (cutoff : ℚ) (n : ℕ) (he : ¬ (candsV1 pairs getInfo cutoff).isEmpty) :
    computeTrendingV1 pairs getInfo cutoff n =
      { trending := (rankByScore (candsV1 pairs getInfo cutoff)).take n,
        isFallback := false } := by
  simp only [computeTrendingV1]
  rw [if_neg he]

/-- C1: if the scored list is non-empty the result is its (score-ranked)
top `n` with `isFallback = false`; if it is empty the result is the top `n`
of the pool list sorted weakly descending by `liquidityUsd`, flagged
`isFallback = true`; and an empty pool list gives an empty entry list with
`isFallback = true`.  Stated for both cited variants, V1 (`main.js` lines
89-97) and P3 (`part_003` lines 78-92). -/
theorem c1_selection_and_fallback (pairs pairsP : List Pair)
    (getInfo : String → Option TokenInfo) (getTxs : String → List TxU) (cutoff : ℚ) (n : ℕ) :
    (candsV1 pairs getInfo cutoff ≠ [] →
      computeTrendingV1 pairs getInfo cutoff n =
        { trending := (rankByScore (candsV1 pairs getInfo cutoff)).take n,
          isFallback := false }) ∧
    (candsV1 pairs getInfo cutoff = [] →
      computeTrendingV1 pairs getInfo cutoff n =
        { trending := ((sortPairsByLiq pairs).take n).map fallbackItemV1, isFallback := true } ∧
      List.Pairwise (fun a b : Pair => safeFloat b.liquidityUsd ≤ safeFloat a.liquidityUsd)
        ((sortPairsByLiq pairs).take n)) ∧
    computeTrendingV1 [] getInfo cutoff n = { trending := [], isFallback := true } ∧
    (pairsP.filterMap (candOfP3 getTxs) ≠ [] →
      computeTrendingP3 pairsP getTxs n =
        { trending := (rankByScoreP3 (pairsP.filterMap (candOfP3 getTxs))).take n,
          isFallback := false }) ∧
    (pairsP.filterMap (candOfP3 getTxs) = [] →
      computeTrendingP3 pairsP getTxs n =
        { trending := ((sortPairsByLiq pairsP).take n).map fallbackItemP3, isFallback := true } ∧
      List.Pairwise (fun a b : Pair => safeFloat b.liquidityUsd ≤ safeFloat a.liquidityUsd)
        ((sortPairsByLiq pairsP).take n)) ∧
    computeTrendingP3 [] getTxs n = { trending := [], isFallback := true } := by
  have hsorted : ∀ l : List Pair,
      List.Pairwise (fun a b : Pair => safeFloat b.liquidityUsd ≤ safeFloat a.liquidityUsd)
        ((sortPairsByLiq l).take n) :=
    fun l => List.Pairwise.sublist (List.take_sublist n _)
      (pairwise_insertionSort_key (fun p : Pair => safeFloat p.liquidityUsd) l)
  refine ⟨?_, ?_, ?_, ?_, ?_, ?_⟩
  · intro h
    exact computeTrendingV1_of_nonempty pairs getInfo cutoff n (by simp [List.isEmpty_iff, h])
  · intro h
    exact ⟨computeTrendingV1_of_empty pairs getInfo cutoff n (by simp [List.isEmpty_iff, h]),
      hsorted pairs⟩
  · rw [computeTrendingV1_of_empty [] getInfo cutoff n (by rfl)]
    simp [sortPairsByLiq]
  · intro h
    exact computeTrendingP3_of_nonempty pairsP getTxs n (by simp [List.isEmpty_iff, h])
  · intro h
    exact ⟨computeTrendingP3_of_empty pairsP getTxs n (by simp [List.isEmpty_iff, h]),
      hsorted pairsP⟩
  · rw [computeTrendingP3_of_empty [] getTxs n (by rfl)]
    simp [sortPairsByLiq]

/-- Recent matching trade for the C1/C10 witness scenario. -/
def w1tx : Tx := { txPair := some (r"p"), time := 100, amountIn := some 10, amountOut := none }

/-- Pair with one recent trade for the C1/C10 witness scenario. -/
def w1pair : Pair :=
  { pairId := "p", token0 := ⟨some (r"T0"), "c0"⟩, token1 := ⟨some (r"T1"), "c1"⟩,
    liquidityUsd := some 5, transactions24h := some 3, volume24h := none }

/-- Fetched-info environment for the C1/C10 witness scenario. -/
def w1getInfo : String → Option TokenInfo :=
  fun s => if s = "c0" then some ⟨some [w1tx]⟩ else none

/-- Pair with no trades at all, for the fallback branch. -/
def w1pairB : Pair :=
  { pairId := "q", token0 := ⟨none, "z0"⟩, token1 := ⟨none, "z1"⟩,
    liquidityUsd := some 7, transactions24h := none, volume24h := none }

/-- The candidate V1 produces in the witness scenario. -/
def w1cand : Cand1 := { pair := w1pair, volume := 10, trades := 1, score := 22 }

/-- Low-liquidity pair that P3 skips, for P3's fallback branch. -/
def p3pairLow : Pair :=
  { pairId := "q", token0 := ⟨none, "z0"⟩, token1 := ⟨none, "z1"⟩,
    liquidityUsd := some 50, transactions24h := none, volume24h := none }

theorem w1cand_eval : candOfV1 w1getInfo 50 w1pair = some w1cand := by
  have ht : tradesForV1 w1getInfo 50 w1pair = [w1tx] := by decide
  have hsum : sumAmountIn [w1tx] = 10 := by
    norm_num [sumAmountIn, w1tx, safeFloat]
  simp only [candOfV1, ht]
  rw [if_neg (by decide)]
  simp only [hsum, Option.some.injEq, w1cand, Cand1.mk.injEq]
  norm_num

theorem w1cands_eval : candsV1 [w1pair] w1getInfo 50 = [w1cand] := by
  simp [candsV1, List.filterMap_cons, w1cand_eval]

theorem p3cand_eval : candOfP3 p3env p3pair = some p3cand := by
  have htx : p3env p3pair.pairId = [TxU.mk (some 10) (some 2)] := rfl
  have hpc0 : priceChangeP3 [TxU.mk (some 10) (some 2)] = 0 := by
    rw [priceChangeP3, if_pos (show (0 : ℚ) < firstPriceP3 [TxU.mk (some 10) (some 2)] by
      rw [show firstPriceP3 [TxU.mk (some 10) (some 2)] = 2 from rfl]; norm_num)]
    rw [show lastPriceP3 [TxU.mk (some 10) (some 2)] = 2 from rfl,
      show firstPriceP3 [TxU.mk (some 10) (some 2)] = 2 from rfl]
    norm_num
  have hsv : List.foldl (fun s t => s + numOr0 t.amountUsd) 0 [TxU.mk (some 10) (some 2)]
      = 10 := by
    simp [numOr0]
  rw [candOfP3, htx]
  rw [if_neg (by rw [show numOr0 p3pair.liquidityUsd = 200 from rfl]; norm_num)]
  simp only [hsv]
  rw [if_pos (show (0 : ℚ) < 10 by norm_num)]
  rw [if_neg (show ¬ ((10 : ℚ) ≤ 0 ∧
    ([TxU.mk (some 10) (some 2)] : List TxU).length = 0) by norm_num)]
  simp only [hpc0]
  norm_num [p3cand]

theorem p3cands_eval : List.filterMap (candOfP3 p3env) [p3pair] = [p3cand] := by
  simp [List.filterMap_cons, p3cand_eval]

theorem c1_selection_and_fallback_witness :
    candsV1 [w1pair] w1getInfo 50 ≠ [] ∧
    computeTrendingV1 [w1pair] w1getInfo 50 5 =
      { trending := (rankByScore (candsV1 [w1pair] w1getInfo 50)).take 5,
        isFallback := false } ∧
    candsV1 [w1pairB] w1getInfo 50 = [] ∧
    computeTrendingV1 [w1pairB] w1getInfo 50 5 =
      { trending := ((sortPairsByLiq [w1pairB]).take 5).map fallbackItemV1,
        isFallback := true } ∧
    computeTrendingV1 [] w1getInfo 50 5 = { trending := [], isFallback := true } ∧
    List.filterMap (candOfP3 p3env) [p3pair] ≠ [] ∧
    computeTrendingP3 [p3pair] p3env 5 =
      { trending := (rankByScoreP3 (List.filterMap (candOfP3 p3env) [p3pair])).take 5,
        isFallback := false } ∧
    List.filterMap (candOfP3 p3env) [p3pairLow] = [] ∧
    computeTrendingP3 [p3pairLow] p3env 5 =
      { trending := ((sortPairsByLiq [p3pairLow]).take 5).map fallbackItemP3,
        isFallback := true } := by
  have hne : candsV1 [w1pair] w1getInfo 50 ≠ [] := by
    rw [w1cands_eval]
    simp
  have hB : candsV1 [w1pairB] w1getInfo 50 = [] := by decide
  have hpne : List.filterMap (candOfP3 p3env) [p3pair] ≠ [] := by
    rw [p3cands_eval]
    simp
  have hplow : List.filterMap (candOfP3 p3env) [p3pairLow] = [] := by decide
  refine ⟨hne,
    (c1_selection_and_fallback [w1pair] [] w1getInfo p3env 50 5).1 hne,
    hB,
    ((c1_selection_and_fallback [w1pairB] [] w1getInfo p3env 50 5).2.1 hB).1,
    (c1_selection_and_fallback [] [] w1getInfo p3env 50 5).2.2.1,
    hpne,
    (c1_selection_and_fallback [] [p3pair] w1getInfo p3env 50 5).2.2.2.1 hpne,
    hplow,
    ((c1_selection_and_fallback [] [p3pairLow] w1getInfo p3env 50 5).2.2.2.2.1 hplow).1⟩

/-! ## P2 `computeTrending` (`src/unnamed/part_002` lines 47-95) -/

/-- P2's enriched record (part_002 line 70): the spread `{...p, vol, txCount}`,
modelled as the pair plus the two added fields. -/
structure EnrichedP2 where
  pair : Pair
  vol : ℚ
  txCount : ℕ
deriving DecidableEq

/-- JS `(info?.transactions || []).filter(t => t.time >= cutoff)`
(part_002 lines 54-55; no flooring, token0 only). -/
def recentP2 (getInfo : String → Option TokenInfo) (cutoff : ℚ) (p : Pair) : List Tx :=
  (txListOf (getInfo p.token0.contract)).filter (fun t => decide (cutoff ≤ t.time))

/-- part_002 lines 52-70: per-pair enrichment with recent volume and count. -/
def enrichP2 (getInfo : String → Option TokenInfo) (cutoff : ℚ) (p : Pair) : EnrichedP2 :=
  { pair := p, vol := sumAmountIn (recentP2 getInfo cutoff p),
    txCount := (recentP2 getInfo cutoff p).length }

/-- An entry of P2's `scored` list (part_002 lines 74-79): `{pair: x, score}`. -/
structure ScoredP2 where
  pair : EnrichedP2
  score : ℚ
deriving DecidableEq

/-- part_002 lines 74-79: keep pairs with `txCount > 0 || vol > 0`, score
them with `vol * 0.5 + txCount * 15`. -/
def scoredP2 (pairs : List Pair) (getInfo : String → Option TokenInfo) (cutoff : ℚ) :
    List ScoredP2 :=
  ((pairs.map (enrichP2 getInfo cutoff)).filter
      (fun x => decide (0 < x.txCount) || decide (0 < x.vol))).map
    (fun x => { pair := x, score := x.vol * (1 / 2) + (x.txCount : ℚ) * 15 })

/-- P2's published entries are enriched records in the trending branch but
raw pairs in the fallback branch (part_002 lines 84-94). -/
inductive ItemP2 where
  | scored (e : EnrichedP2)
  | plain (p : Pair)
deriving DecidableEq

structure ResultP2 where
  trending : List ItemP2
  isFallback : Bool
deriving DecidableEq

/-- JS `scored.sort((a, b) => b.score - a.score)` (part_002 line 80). -/
def rankP2 (l : List ScoredP2) : List ScoredP2 :=
  List.insertionSort (fun a b => b.score ≤ a.score) l

/-- JS `computeTrending` of `src/unnamed/part_002` lines 47-95. -/
def computeTrendingP2 (pairs : List Pair) (getInfo : String → Option TokenInfo)
    (cutoff : ℚ) (n : ℕ) : ResultP2 :=
  if (scoredP2 pairs getInfo cutoff).isEmpty then
    { trending := ((sortPairsByLiq pairs).take n).map ItemP2.plain, isFallback := true }
  else
    { trending := ((rankP2 (scoredP2 pairs getInfo cutoff)).take n).map
        (fun x => ItemP2.scored x.pair), isFallback := false }

/-! ## P4 `computeTrending` (`src/unnamed/part_004` lines 47-84) -/

structure Cand4 where
  pair : Pair
  vol : ℚ
  txCount : ℕ
  score : ℚ
deriving DecidableEq

/-- JS `transactions.filter(tx => DateTime.fromSeconds(Math.floor(tx.time)) >= cutoff)`
(part_004 lines 62-64). -/
def recentP4 (txs : List Tx) (cutoff : ℚ) : List Tx :=
  txs.filter (fun t => decide (cutoff ≤ (⌊t.time⌋ : ℚ)))

/-- One iteration of the P4 loop (part_004 lines 57-71): the guard
`if (!tokenInfo?.transactions?.length) continue;` skips exactly when the
optional chain is missing or the list empty (both make `txListOf` empty);
then skip when no transaction is recent, otherwise score with
`vol * 0.5 + recentTx.length * 10 + (liquidityUsd ?? 0) * 0.0001`. -/
def candOfP4 (getInfo : String → Option TokenInfo) (cutoff : ℚ) (p : Pair) : Option Cand4 :=
  let txs := txListOf (getInfo p.token0.contract)
  if txs.length = 0 then none
  else
    let recentTx := recentP4 txs cutoff
    if recentTx.isEmpty then none
    else some { pair := p, vol := sumAmountIn recentTx, txCount := recentTx.length,
                score := sumAmountIn recentTx * (1 / 2) + (recentTx.length : ℚ) * 10
                  + numOr0 p.liquidityUsd * (1 / 10000) }

structure TrendingResultP4 where
  trending : List Cand4
  isFallback : Bool
deriving DecidableEq

/-- A P4 fallback entry (part_004 line 79). -/
def fallbackItemP4 (p : Pair) : Cand4 :=
  { pair := p, vol := 0, txCount := p.transactions24h.getD 0, score := 0 }

/-- JS `scored.sort((a, b) => b.score - a.score)` (part_004 line 73). -/
def rankP4 (l : List Cand4) : List Cand4 :=
  List.insertionSort (fun a b => b.score ≤ a.score) l

/-- JS `computeTrending` of `src/unnamed/part_004` lines 47-84. -/
def computeTrendingP4 (pairs : List Pair) (getInfo : String → Option TokenInfo)
    (cutoff : ℚ) (n : ℕ) : TrendingResultP4 :=
  let scored := pairs.filterMap (candOfP4 getInfo cutoff)
  if scored.isEmpty then
    { trending := ((sortPairsByLiq pairs).take n).map fallbackItemP4, isFallback := true }
  else
    { trending := (rankP4 scored).take n, isFallback := false }

/-! ## C10: non-fallback items are built from recent trades -/

theorem sumAmountIn_nil : sumAmountIn [] = 0 := rfl

/-- C10: in every non-fallback result of the three cited variants, each
listed item has at least one trade inside the lookback window (`txCount ≥
1`), its count and volume are exactly the length of and the coerced-USD
sum over its recent-trade list, and every trade of that list lies inside
the window.  A pool with zero recent trades is skipped (V1, P4) or filtered
out (P2) and so never appears in a non-fallback listing. -/
theorem c10_nonfallback_recent_trades (pairs pairs2 pairs4 : List Pair)
    (getInfo getInfo2 getInfo4 : String → Option TokenInfo)
    (cutoff cutoff2 cutoff4 : ℚ) (n : ℕ) :
    ((computeTrendingV1 pairs getInfo cutoff n).isFallback = false →
      ∀ c ∈ (computeTrendingV1 pairs getInfo cutoff n).trending,
        1 ≤ c.trades ∧
        c.trades = (tradesForV1 getInfo cutoff c.pair).length ∧
        c.volume = sumAmountIn (tradesForV1 getInfo cutoff c.pair) ∧
        ∀ t ∈ tradesForV1 getInfo cutoff c.pair, cutoff ≤ (⌊t.time⌋ : ℚ)) ∧
    ((computeTrendingP2 pairs2 getInfo2 cutoff2 n).isFallback = false →
      ∀ it ∈ (computeTrendingP2 pairs2 getInfo2 cutoff2 n).trending,
        ∃ e : EnrichedP2, it = ItemP2.scored e ∧
          1 ≤ e.txCount ∧
          e.txCount = (recentP2 getInfo2 cutoff2 e.pair).length ∧
          e.vol = sumAmountIn (recentP2 getInfo2 cutoff2 e.pair) ∧
          ∀ t ∈ recentP2 getInfo2 cutoff2 e.pair, cutoff2 ≤ t.time) ∧
    ((computeTrendingP4 pairs4 getInfo4 cutoff4 n).isFallback = false →
      ∀ c ∈ (computeTrendingP4 pairs4 getInfo4 cutoff4 n).trending,
        1 ≤ c.txCount ∧
        c.txCount = (recentP4 (txListOf (getInfo4 c.pair.token0.contract)) cutoff4).length ∧
        c.vol = sumAmountIn (recentP4 (txListOf (getInfo4 c.pair.token0.contract)) cutoff4) ∧
        ∀ t ∈ recentP4 (txListOf (getInfo4 c.pair.token0.contract)) cutoff4,
          cutoff4 ≤ (⌊t.time⌋ : ℚ)) := by
  refine ⟨?_, ?_, ?_⟩
  · intro hfb
    by_cases he : (candsV1 pairs getInfo cutoff).isEmpty
    · rw [computeTrendingV1_of_empty pairs getInfo cutoff n he] at hfb
      exact absurd hfb (by simp)
    · rw [computeTrendingV1_of_nonempty pairs getInfo cutoff n he]
      refine forall_mem_take_insertionSort _ (forall_mem_filterMap ?_) n
      intro p c hc
      rw [candOfV1] at hc
      by_cases h1 : (tradesForV1 getInfo cutoff p).isEmpty
      · rw [if_pos h1] at hc
        exact absurd hc (by simp)
      · rw [if_neg h1] at hc
        rw [Option.some.injEq] at hc
        rw [← hc]
        have hlen : 1 ≤ (tradesForV1 getInfo cutoff p).length := by
          rw [Nat.one_le_iff_ne_zero]
          intro h0
          exact h1 (by simpa [List.isEmpty_iff, List.length_eq_zero] using h0)
        refine ⟨hlen, rfl, rfl, ?_⟩
        intro t ht
        have hcond := (List.mem_filter.mp ht).2
        simp only [Bool.and_eq_true, decide_eq_true_eq, isRecentV1] at hcond
        exact hcond.2
  · intro hfb
    by_cases he : (scoredP2 pairs2 getInfo2 cutoff2).isEmpty
    · rw [computeTrendingP2] at hfb
      rw [if_pos he] at hfb
      exact absurd hfb (by simp)
    · rw [computeTrendingP2, if_neg he]
      intro it hit
      obtain ⟨sc, hsc, hscit⟩ := List.mem_map.mp hit
      have hsc2 : sc ∈ scoredP2 pairs2 getInfo2 cutoff2 :=
        (List.perm_insertionSort _ _).mem_iff.mp (List.mem_of_mem_take hsc)
      obtain ⟨x, hx, hxsc⟩ := List.mem_map.mp hsc2
      have hxcond := (List.mem_filter.mp hx).2
      obtain ⟨p, _, hpx⟩ := List.mem_map.mp (List.mem_filter.mp hx).1
      refine ⟨sc.pair, hscit.symm, ?_, ?_, ?_, ?_⟩
      · have hpair : sc.pair = x := by rw [← hxsc]
        rw [hpair]
        simp only [Bool.or_eq_true, decide_eq_true_eq] at hxcond
        rcases hxcond with hcnt | hvol
        · exact hcnt
        · have hvol' : 0 < x.vol := hvol
          rw [← hpx] at hvol' ⊢
          rw [enrichP2] at hvol' ⊢
          by_cases hr : recentP2 getInfo2 cutoff2 p = []
          · rw [hr, sumAmountIn_nil] at hvol'
            exact absurd hvol' (by norm_num)
          · simpa using Nat.one_le_iff_ne_zero.mpr
              (fun h0 => hr (List.length_eq_zero.mp h0))
      · have hpair : sc.pair = x := by rw [← hxsc]
        rw [hpair, ← hpx, enrichP2]
      · have hpair : sc.pair = x := by rw [← hxsc]
        rw [hpair, ← hpx, enrichP2]
      · intro t ht
        exact of_decide_eq_true (List.mem_filter.mp ht).2
  · intro hfb
    by_cases he : (pairs4.filterMap (candOfP4 getInfo4 cutoff4)).isEmpty
    · rw [show computeTrendingP4 pairs4 getInfo4 cutoff4 n =
          { trending := ((sortPairsByLiq pairs4).take n).map fallbackItemP4,
            isFallback := true } by
          simp only [computeTrendingP4]; rw [if_pos he]] at hfb
      exact absurd hfb (by simp)
    · rw [show computeTrendingP4 pairs4 getInfo4 cutoff4 n =
          { trending := (rankP4 (pairs4.filterMap (candOfP4 getInfo4 cutoff4))).take n,
            isFallback := false } by
          simp only [computeTrendingP4]; rw [if_neg he]]
      refine forall_mem_take_insertionSort _ (forall_mem_filterMap ?_) n
      intro p c hc
      rw [candOfP4] at hc
      by_cases h0 : (txListOf (getInfo4 p.token0.contract)).length = 0
      · rw [if_pos h0] at hc
        exact absurd hc (by simp)
      · rw [if_neg h0] at hc
        by_cases h1 : (recentP4 (txListOf (getInfo4 p.token0.contract)) cutoff4).isEmpty
        · simp only [if_pos h1] at hc
          exact absurd hc (by simp)
        · simp only [if_neg h1, Option.some.injEq] at hc
          rw [← hc]
          have hlen : 1 ≤ (recentP4 (txListOf (getInfo4 p.token0.contract)) cutoff4).length := by
            rw [Nat.one_le_iff_ne_zero]
            intro hz
            exact h1 (by simpa [List.isEmpty_iff, List.length_eq_zero] using hz)
          refine ⟨hlen, rfl, rfl, ?_⟩
          intro t ht
          exact of_decide_eq_true (List.mem_filter.mp ht).2

theorem w1trending_eval : computeTrendingV1 [w1pair] w1getInfo 50 5 =
    { trending := [w1cand], isFallback := false } := by
  rw [computeTrendingV1_of_nonempty _ _ _ _ (by rw [w1cands_eval]; simp), w1cands_eval]
  rfl

/-- The enriched record P2 produces in the witness scenario. -/
def w2enr : EnrichedP2 := { pair := w1pair, vol := 10, txCount := 1 }

theorem w2enr_eval : enrichP2 w1getInfo 50 w1pair = w2enr := by
  have hr : recentP2 w1getInfo 50 w1pair = [w1tx] := by decide
  have hsum : sumAmountIn [w1tx] = 10 := by
    norm_num [sumAmountIn, w1tx, safeFloat]
  rw [enrichP2, hr, hsum]
  rfl

theorem w2scored_eval : scoredP2 [w1pair] w1getInfo 50 = [⟨w2enr, 20⟩] := by
  rw [scoredP2]
  simp only [List.map_cons, List.map_nil, w2enr_eval]
  rw [List.filter_cons, if_pos (by decide)]
  simp only [List.filter_nil, List.map_cons, List.map_nil]
  have hs : w2enr.vol * (1 / 2) + (w2enr.txCount : ℚ) * 15 = 20 := by
    rw [show w2enr.vol = 10 from rfl, show w2enr.txCount = 1 from rfl]
    norm_num
  rw [hs]

theorem w2trending_eval : computeTrendingP2 [w1pair] w1getInfo 50 5 =
    { trending := [ItemP2.scored w2enr], isFallback := false } := by
  rw [computeTrendingP2, if_neg (by rw [w2scored_eval]; simp), w2scored_eval]
  rfl

/-- The candidate P4 produces in the witness scenario. -/
def w4cand : Cand4 := { pair := w1pair, vol := 10, txCount := 1, score := 30001 / 2000 }

theorem w4cand_eval : candOfP4 w1getInfo 50 w1pair = some w4cand := by
  have htl : txListOf (w1getInfo w1pair.token0.contract) = [w1tx] := by decide
  have hr : recentP4 [w1tx] 50 = [w1tx] := by decide
  have hsum : sumAmountIn [w1tx] = 10 := by
    norm_num [sumAmountIn, w1tx, safeFloat]
  simp only [candOfP4, htl, hr]
  rw [if_neg (show ¬ (([w1tx] : List Tx).length = 0) by decide)]
  rw [if_neg (show ¬ (([w1tx] : List Tx).isEmpty = true) by decide)]
  simp only [hsum, Option.some.injEq, w4cand, Cand4.mk.injEq]
  norm_num [w1pair, numOr0]

theorem w4trending_eval : computeTrendingP4 [w1pair] w1getInfo 50 5 =
    { trending := [w4cand], isFallback := false } := by
  have hfm : List.filterMap (candOfP4 w1getInfo 50) [w1pair] = [w4cand] := by
    simp [List.filterMap_cons, w4cand_eval]
  simp only [computeTrendingP4, hfm]
  rw [if_neg (by simp)]
  rfl

theorem c10_nonfallback_recent_trades_witness :
    (computeTrendingV1 [w1pair] w1getInfo 50 5).isFallback = false ∧
    w1cand ∈ (computeTrendingV1 [w1pair] w1getInfo 50 5).trending ∧
    1 ≤ w1cand.trades ∧
    w1cand.volume = sumAmountIn (tradesForV1 w1getInfo 50 w1cand.pair) ∧
    (computeTrendingP2 [w1pair] w1getInfo 50 5).isFallback = false ∧
    ItemP2.scored w2enr ∈ (computeTrendingP2 [w1pair] w1getInfo 50 5).trending ∧
    1 ≤ w2enr.txCount ∧
    w2enr.vol = sumAmountIn (recentP2 w1getInfo 50 w2enr.pair) ∧
    (computeTrendingP4 [w1pair] w1getInfo 50 5).isFallback = false ∧
    w4cand ∈ (computeTrendingP4 [w1pair] w1getInfo 50 5).trending ∧
    1 ≤ w4cand.txCount ∧
    w4cand.vol = sumAmountIn (recentP4 (txListOf (w1getInfo w4cand.pair.token0.contract)) 50)
    := by
  have hfbV : (computeTrendingV1 [w1pair] w1getInfo 50 5).isFallback = false := by
    rw [w1trending_eval]
  have hmemV : w1cand ∈ (computeTrendingV1 [w1pair] w1getInfo 50 5).trending := by
    rw [w1trending_eval]
    exact List.mem_singleton.mpr rfl
  have happV := (c10_nonfallback_recent_trades [w1pair] [w1pair] [w1pair]
    w1getInfo w1getInfo w1getInfo 50 50 50 5).1 hfbV w1cand hmemV
  have hfb2 : (computeTrendingP2 [w1pair] w1getInfo 50 5).isFallback = false := by
    rw [w2trending_eval]
  have hmem2 : ItemP2.scored w2enr ∈ (computeTrendingP2 [w1pair] w1getInfo 50 5).trending := by
    rw [w2trending_eval]
    exact List.mem_singleton.mpr rfl
  have happ2 := (c10_nonfallback_recent_trades [w1pair] [w1pair] [w1pair]
    w1getInfo w1getInfo w1getInfo 50 50 50 5).2.1 hfb2 (ItemP2.scored w2enr) hmem2
  obtain ⟨e, heq, he1, he2, he3, _⟩ := happ2
  have hee : e = w2enr := by
    injection heq with h
    exact h.symm
  rw [hee] at he1 he3
  have hfb4 : (computeTrendingP4 [w1pair] w1getInfo 50 5).isFallback = false := by
    rw [w4trending_eval]
  have hmem4 : w4cand ∈ (computeTrendingP4 [w1pair] w1getInfo 50 5).trending := by
    rw [w4trending_eval]
    exact List.mem_singleton.mpr rfl
  have happ4 := (c10_nonfallback_recent_trades [w1pair] [w1pair] [w1pair]
    w1getInfo w1getInfo w1getInfo 50 50 50 5).2.2 hfb4 w4cand hmem4
  exact ⟨hfbV, hmemV, happV.1, happV.2.2.1, hfb2, hmem2, he1, he3, hfb4, hmem4,
    happ4.1, happ4.2.2.1⟩

/-! ## Gateway layer: JSON envelopes and fetch outcomes (C3, C8) -/

/-- A parsed JSON value as the fetch layer sees it. -/
inductive Json where
  | null
  | jbool (b : Bool)
  | jnum (q : ℚ)
  | jstr (s : String)
  | jarr (xs : List Json)
  | jobj (fields : List (String × Json))

/-- First matching field of a JSON object, as in parsed JSON. -/
def lookupField (fields : List (String × Json)) (k : String) : Option Json :=
  match fields with
  | [] => none
  | (k2, v) :: rest => if k2 = k then some v else lookupField rest k

/-- Optional-chain field access `o?.k`: `none` models JS `undefined`
(missing field, or property access on a non-object). -/
def jsGet (d : Json) (k : String) : Option Json :=
  match d with
  | Json.jobj fields => lookupField fields k
  | _ => none

/-- JS `o?.k1?.k2`. -/
def jsGet2 (d : Json) (k1 k2 : String) : Option Json :=
  match jsGet d k1 with
  | some v => jsGet v k2
  | none => none

/-- JS truthiness of a JSON value (note: `[]` and `{}` are truthy). -/
def jsTruthy : Json → Bool
  | Json.null => false
  | Json.jbool b => b
  | Json.jnum q => decide (q ≠ 0)
  | Json.jstr s => !(s.isEmpty)
  | Json.jarr _ => true
  | Json.jobj _ => true

/-- JS `v || w` where the left operand may be `undefined` (JS `a?.b || w`). -/
def jsOrElse (v : Option Json) (w : Json) : Json :=
  match v with
  | some x => if jsTruthy x then x else w
  | none => w

/-- Returns `true` when the optional value is absent or falsy, i.e. when
the JS `||` falls through to its right operand. -/
def jsFalsyOpt (v : Option Json) : Bool :=
  match v with
  | none => true
  | some x => !(jsTruthy x)

/-- JS `ToNumber` on the payload values met here (`none` models `NaN`).
The pools endpoints deliver numeric fields as JSON numbers; string/array/
object coercions are not exercised by any claim and are modelled as `NaN`. -/
def jsToNumber : Json → Option ℚ
  | Json.null => some 0
  | Json.jbool b => some (if b then 1 else 0)
  | Json.jnum q => some q
  | Json.jstr _ => none
  | Json.jarr _ => none
  | Json.jobj _ => none

/-- JS `safeFloat` applied to a possibly-missing JSON field (`main.js`
lines 20-23 on a raw payload value). -/
def safeFloatJson (v : Option Json) : ℚ :=
  match v with
  | some j => (jsToNumber j).getD 0
  | none => 0

/-- JS `(x ?? 0)` before a numeric comparison: `undefined`/`null` become 0,
everything else goes through `ToNumber` (`none` = `NaN`). -/
def nullishNum (v : Option Json) : Option ℚ :=
  match v with
  | none => some 0
  | some Json.null => some 0
  | some j => jsToNumber j

/-- JS `(p.liquidityUsd ?? 0) > 0` — false when the coercion is `NaN`. -/
def gtZeroNullish (v : Option Json) : Bool :=
  match nullishNum v with
  | some q => decide (0 < q)
  | none => false

/-- JS `(p.liquidityUsd ?? 0) >= 100` — false when the coercion is `NaN`. -/
def ge100Nullish (v : Option Json) : Bool :=
  match nullishNum v with
  | some q => decide (100 ≤ q)
  | none => false

/-- Outcome of one upstream HTTP GET as axios reports it: a parsed JSON
body, a timeout, or a non-2xx response (axios rejects on both). -/
inductive Upstream where
  | ok (payload : Json)
  | timeout
  | httpError (status : ℕ)

/-- The exceptions a fetch function without try/catch lets escape. -/
inductive FetchError where
  | timeout
  | httpStatus (status : ℕ)
  | typeError
deriving DecidableEq

/-- Envelope extraction of V1's `fetchPairs`: `data?.success?.data || []`
(`main.js` line 35).  The subsequent `.filter` needs an array; a non-array
truthy envelope value makes `.filter` throw, which the surrounding
try/catch turns into the empty result as well. -/
def poolsFromPayloadV1 (d : Json) : List Json :=
  match jsOrElse (jsGet2 d (r"success") (r"data")) (Json.jarr []) with
  | Json.jarr xs => xs
  | _ => []

/-- JS `fetchPairs` of `main.js` lines 32-40: on any axios rejection the catch
returns `[]`; on success, extract and keep pools with
`safeFloat(p.liquidityUsd) > 0`. -/
def fetchPairsV1 (u : Upstream) : List Json :=
  match u with
  | Upstream.ok d =>
      (poolsFromPayloadV1 d).filter
        (fun p => decide (0 < safeFloatJson (jsGet p (r"liquidityUsd"))))
  | Upstream.timeout => []
  | Upstream.httpError _ => []

/-- Envelope extraction of V2's `fetchPairs`:
`data?.data || data?.success?.data || []` (`main.js` line 201), with the
same array-or-throw-then-catch behaviour as V1. -/
def poolsFromPayloadV2 (d : Json) : List Json :=
  match jsOrElse (jsGet d (r"data"))
      (jsOrElse (jsGet2 d (r"success") (r"data")) (Json.jarr [])) with
  | Json.jarr xs => xs
  | _ => []

/-- JS `fetchPairs` of `main.js` lines 198-209: extract, keep
`(p.liquidityUsd ?? 0) > 0`, sort descending by `(liquidityUsd ?? 0)` and
keep the top 30; every pool surviving the filter has a non-`NaN` positive
key, so the comparator is the total order on the coerced key. -/
def fetchPairsV2 (u : Upstream) : List Json :=
  match u with
  | Upstream.ok d =>
      (List.insertionSort
        (fun a b => (nullishNum (jsGet b (r"liquidityUsd"))).getD 0 ≤
          (nullishNum (jsGet a (r"liquidityUsd"))).getD 0)
        ((poolsFromPayloadV2 d).filter
          (fun p => gtZeroNullish (jsGet p (r"liquidityUsd"))))).take 30
  | Upstream.timeout => []
  | Upstream.httpError _ => []

/-- JS `fetchTokenInfo` of `main.js` lines 42-49: `data?.success?.data || null`
on success, `null` from the catch on any failure (`none` models `null`). -/
def fetchTokenInfoV1 (u : Upstream) : Option Json :=
  match u with
  | Upstream.ok d =>
      match jsOrElse (jsGet2 d (r"success") (r"data")) Json.null with
      | Json.null => none
      | Json.jbool b => some (Json.jbool b)
      | Json.jnum q => some (Json.jnum q)
      | Json.jstr s => some (Json.jstr s)
      | Json.jarr xs => some (Json.jarr xs)
      | Json.jobj fs => some (Json.jobj fs)
  | Upstream.timeout => none
  | Upstream.httpError _ => none

/-- JS `fetchRecentTransactions` of `src/unnamed/part_003` lines 37-47:
`data?.data || []` on success, `[]` from the catch on any failure. -/
def fetchTradesP3 (u : Upstream) : Json :=
  match u with
  | Upstream.ok d => jsOrElse (jsGet d (r"data")) (Json.jarr [])
  | Upstream.timeout => Json.jarr []
  | Upstream.httpError _ => Json.jarr []

/-- JS `fetchPairs` of `src/unnamed/part_002` lines 30-35: **no try/catch** —
an axios timeout or HTTP rejection escapes the function, and so does the
`TypeError` of calling `.filter` on a non-array truthy `data.data`.  The
filter keeps `(p.liquidityUsd ?? 0) >= 100`. -/
def fetchPairsP2 (u : Upstream) : Except FetchError (List Json) :=
  match u with
  | Upstream.timeout => Except.error FetchError.timeout
  | Upstream.httpError s => Except.error (FetchError.httpStatus s)
  | Upstream.ok d =>
      match jsOrElse (jsGet d (r"data")) (Json.jarr []) with
      | Json.jarr xs =>
          Except.ok (xs.filter (fun p => ge100Nullish (jsGet p (r"liquidityUsd"))))
      | _ => Except.error FetchError.typeError

/-! ## C3: fetch failures degrade to empty results -/

/-- C3 is false as stated: P2's pool-list fetch has no try/catch, so an
upstream timeout propagates out of the Gateway fetch function (it is only
caught by the controller `postTrending`), instead of yielding the empty
sequence. -/
theorem c3_counterexample :
    fetchPairsP2 Upstream.timeout = Except.error FetchError.timeout ∧
    fetchPairsP2 Upstream.timeout ≠ Except.ok [] := by
  refine ⟨rfl, ?_⟩
  intro h
  exact Except.noConfusion h

/-- C3 (amended): every cited fetch function wrapped in try/catch returns
the empty result on upstream timeout, non-2xx response, or a payload whose
envelope yields nothing (V1/V2 pool lists, V1 token info, P3 trade list);
the exception is P2's pool-list fetch, whose failures propagate past the
Gateway boundary to the cycle controller's catch. -/
theorem c3_fetch_failures (s : ℕ) (d : Json) :
    fetchPairsV1 Upstream.timeout = [] ∧
    fetchPairsV1 (Upstream.httpError s) = [] ∧
    (poolsFromPayloadV1 d = [] → fetchPairsV1 (Upstream.ok d) = []) ∧
    fetchPairsV2 Upstream.timeout = [] ∧
    fetchPairsV2 (Upstream.httpError s) = [] ∧
    (poolsFromPayloadV2 d = [] → fetchPairsV2 (Upstream.ok d) = []) ∧
    fetchTokenInfoV1 Upstream.timeout = none ∧
    fetchTokenInfoV1 (Upstream.httpError s) = none ∧
    fetchTradesP3 Upstream.timeout = Json.jarr [] ∧
    fetchTradesP3 (Upstream.httpError s) = Json.jarr [] ∧
    fetchPairsP2 Upstream.timeout = Except.error FetchError.timeout ∧
    fetchPairsP2 (Upstream.httpError s) = Except.error (FetchError.httpStatus s) := by
  refine ⟨rfl, rfl, ?_, rfl, rfl, ?_, rfl, rfl, rfl, rfl, rfl, rfl⟩
  · intro h
    simp [fetchPairsV1, h]
  · intro h
    simp [fetchPairsV2, h, List.insertionSort]

theorem c3_fetch_failures_witness :
    poolsFromPayloadV1 Json.null = [] ∧ fetchPairsV1 (Upstream.ok Json.null) = [] ∧
    poolsFromPayloadV2 Json.null = [] ∧ fetchPairsV2 (Upstream.ok Json.null) = [] ∧
    fetchPairsV1 Upstream.timeout = [] ∧ fetchPairsV2 (Upstream.httpError 503) = [] := by
  have h1 : poolsFromPayloadV1 Json.null = [] := rfl
  have h2 : poolsFromPayloadV2 Json.null = [] := rfl
  exact ⟨h1, (c3_fetch_failures 503 Json.null).2.2.1 h1, h2,
    (c3_fetch_failures 503 Json.null).2.2.2.2.2.1 h2,
    (c3_fetch_failures 503 Json.null).1,
    (c3_fetch_failures 503 Json.null).2.2.2.2.1⟩

/-! ## C8: envelope tolerance -/

/-- C8 is false as stated: on the `{data: [...]}` envelope the V1 gateway
(`main.js` lines 32-40) yields the empty collection instead of the pool
collection, while the V2 gateway (lines 198-209) extracts it. -/
theorem c8_counterexample :
    poolsFromPayloadV1 (Json.jobj [((r"data"), Json.jarr [Json.jnum 1])]) = [] ∧
    poolsFromPayloadV2 (Json.jobj [((r"data"), Json.jarr [Json.jnum 1])]) = [Json.jnum 1] ∧
    ([Json.jnum 1] : List Json) ≠ [] := by
  refine ⟨rfl, rfl, ?_⟩
  intro h
  exact List.noConfusion h

/-- C8 (amended): the V2 `fetchPairs` tolerates both envelope shapes — it
extracts `data` when that field holds an array, falls back to
`success.data` when `data` is absent/falsy, and otherwise yields the empty
collection (its extraction is always `[]` or exactly one of the two
envelope arrays).  The V1 `fetchPairs` handles only the
`{success:{data:[...]}}` shape and yields `[]` for `{data:[...]}`. -/
theorem c8_envelope_shapes (d : Json) (xs ys : List Json) :
    (jsGet d (r"data") = some (Json.jarr xs) → poolsFromPayloadV2 d = xs) ∧
    (jsFalsyOpt (jsGet d (r"data")) = true →
      jsGet2 d (r"success") (r"data") = some (Json.jarr ys) → poolsFromPayloadV2 d = ys) ∧
    (poolsFromPayloadV2 d = [] ∨
      jsOrElse (jsGet d (r"data"))
          (jsOrElse (jsGet2 d (r"success") (r"data")) (Json.jarr []))
        = Json.jarr (poolsFromPayloadV2 d)) ∧
    (jsGet2 d (r"success") (r"data") = some (Json.jarr ys) → poolsFromPayloadV1 d = ys) ∧
    (jsGet2 d (r"success") (r"data") = none → poolsFromPayloadV1 d = []) := by
  refine ⟨?_, ?_, ?_, ?_, ?_⟩
  · intro h
    rw [poolsFromPayloadV2, h, jsOrElse, if_pos (by rfl)]
  · intro hf h
    rw [poolsFromPayloadV2, h]
    cases hv : jsGet d (r"data") with
    | none =>
        rw [jsOrElse, jsOrElse, if_pos (by rfl)]
    | some v =>
        rw [hv] at hf
        have : jsTruthy v = false := by
          rw [jsFalsyOpt] at hf
          simpa using hf
        rw [jsOrElse, if_neg (by rw [this]; intro hc; exact Bool.noConfusion hc),
          jsOrElse, if_pos (by rfl)]
  · rw [poolsFromPayloadV2]
    cases he : jsOrElse (jsGet d (r"data"))
        (jsOrElse (jsGet2 d (r"success") (r"data")) (Json.jarr [])) with
    | jarr zs => right; rfl
    | null => left; rfl
    | jbool b => left; rfl
    | jnum q => left; rfl
    | jstr s2 => left; rfl
    | jobj fs => left; rfl
  · intro h
    rw [poolsFromPayloadV1, h, jsOrElse, if_pos (by rfl)]
  · intro h
    rw [poolsFromPayloadV1, h, jsOrElse]

theorem c8_envelope_shapes_witness :
    jsGet (Json.jobj [((r"data"), Json.jarr [Json.jnum 1])]) (r"data")
      = some (Json.jarr [Json.jnum 1]) ∧
    poolsFromPayloadV2 (Json.jobj [((r"data"), Json.jarr [Json.jnum 1])]) = [Json.jnum 1] ∧
    jsFalsyOpt (jsGet (Json.jobj [((r"success"),
      Json.jobj [((r"data"), Json.jarr [Json.jnum 2])])]) (r"data")) = true ∧
    jsGet2 (Json.jobj [((r"success"), Json.jobj [((r"data"), Json.jarr [Json.jnum 2])])])
      (r"success") (r"data") = some (Json.jarr [Json.jnum 2]) ∧
    poolsFromPayloadV2 (Json.jobj [((r"success"),
      Json.jobj [((r"data"), Json.jarr [Json.jnum 2])])]) = [Json.jnum 2] ∧
    poolsFromPayloadV1 (Json.jobj [((r"success"),
      Json.jobj [((r"data"), Json.jarr [Json.jnum 2])])]) = [Json.jnum 2] := by
  refine ⟨rfl, ?_, rfl, rfl, ?_, ?_⟩
  · exact (c8_envelope_shapes (Json.jobj [((r"data"), Json.jarr [Json.jnum 1])])
      [Json.jnum 1] []).1 rfl
  · exact ((c8_envelope_shapes (Json.jobj [((r"success"),
      Json.jobj [((r"data"), Json.jarr [Json.jnum 2])])]) [] [Json.jnum 2]).2.1) rfl rfl
  · exact ((c8_envelope_shapes (Json.jobj [((r"success"),
      Json.jobj [((r"data"), Json.jarr [Json.jnum 2])])]) [] [Json.jnum 2]).2.2.2.1) rfl

/-! ## C9: the messaging phase of `postTrending` (`main.js` lines 123-145) -/

/-- Result of one Telegram API call. -/
inductive CallResult where
  | ok
  | err
deriving DecidableEq

/-- The channel's behaviour during one cycle: outcomes of
`unpinAllChatMessages`, `deleteMessage`, `sendMessage` (`some id` when it
resolves with a message id) and `pinChatMessage`. -/
structure ChannelEnv where
  unpinResult : CallResult
  deleteResult : CallResult
  sendResult : Option ℕ
  pinResult : CallResult
deriving DecidableEq

/-- The messaging phase of `postTrending` (`main.js` lines 128-140) as a
function of the stored handle and the channel outcomes, returning the new
stored handle and the id of the message sent this cycle (if any).
`unpin`/`delete` carry `.catch(() => {})`, so their outcomes never reach
the rest of the function; a `sendMessage` rejection jumps to the cycle's
catch with nothing sent and the state untouched; a `pinChatMessage`
rejection jumps to the catch *after* the message was sent but *before*
`lastPinnedId = msg.message_id` on line 140 runs. -/
def publishPhase (lastPinnedId : Option ℕ) (env : ChannelEnv) : Option ℕ × Option ℕ :=
  match env.sendResult with
  | none => (lastPinnedId, none)
  | some mid =>
    match env.pinResult with
    | CallResult.err => (lastPinnedId, some mid)
    | CallResult.ok => (some mid, some mid)

/-- C9 is false as stated: when `pinChatMessage` rejects, the cycle's
message was sent (id 42 returned) but the new message handle is *not*
stored — `lastPinnedId` keeps its old value 7, because the assignment
after the pin is never reached. -/
theorem c9_counterexample :
    publishPhase (some 7) ⟨CallResult.ok, CallResult.ok, some 42, CallResult.err⟩
      = (some 7, some 42) ∧
    (some 7 : Option ℕ) ≠ some 42 := by
  exact ⟨rfl, by decide⟩

/-- C9 (amended): unpin and delete failures are tolerated silently — the
phase's outcome never depends on them; a publish failure aborts the
cycle's output (no message sent, handle unchanged); a pin failure does not
abort the send — the message id is still delivered — but it prevents the
new handle from being stored, leaving the previous handle in place. -/
theorem c9_publish_phase (lp : Option ℕ) (env env2 : ChannelEnv) (mid : ℕ) :
    (env2.sendResult = env.sendResult → env2.pinResult = env.pinResult →
      publishPhase lp env2 = publishPhase lp env) ∧
    (env.sendResult = none → publishPhase lp env = (lp, none)) ∧
    (env.sendResult = some mid → (publishPhase lp env).2 = some mid) ∧
    (env.sendResult = some mid → env.pinResult = CallResult.ok →
      publishPhase lp env = (some mid, some mid)) ∧
    (env.sendResult = some mid → env.pinResult = CallResult.err →
      publishPhase lp env = (lp, some mid)) := by
  refine ⟨?_, ?_, ?_, ?_, ?_⟩
  · intro h1 h2
    simp only [publishPhase, h1, h2]
  · intro h
    simp only [publishPhase, h]
  · intro h
    simp only [publishPhase, h]
    cases env.pinResult <;> rfl
  · intro h1 h2
    simp only [publishPhase, h1, h2]
  · intro h1 h2
    simp only [publishPhase, h1, h2]

theorem c9_publish_phase_witness :
    publishPhase (some 7) ⟨CallResult.err, CallResult.err, some 42, CallResult.ok⟩
      = publishPhase (some 7) ⟨CallResult.ok, CallResult.ok, some 42, CallResult.ok⟩ ∧
    publishPhase (some 7) ⟨CallResult.ok, CallResult.ok, none, CallResult.ok⟩
      = (some 7, none) ∧
    publishPhase (some 7) ⟨CallResult.ok, CallResult.ok, some 42, CallResult.ok⟩
      = (some 42, some 42) ∧
    publishPhase (some 7) ⟨CallResult.ok, CallResult.ok, some 42, CallResult.err⟩
      = (some 7, some 42) := by
  refine ⟨?_, ?_, ?_, ?_⟩
  · exact (c9_publish_phase (some 7)
      ⟨CallResult.ok, CallResult.ok, some 42, CallResult.ok⟩
      ⟨CallResult.err, CallResult.err, some 42, CallResult.ok⟩ 42).1 rfl rfl
  · exact (c9_publish_phase (some 7)
      ⟨CallResult.ok, CallResult.ok, none, CallResult.ok⟩
      ⟨CallResult.ok, CallResult.ok, none, CallResult.ok⟩ 42).2.1 rfl
  · exact (c9_publish_phase (some 7)
      ⟨CallResult.ok, CallResult.ok, some 42, CallResult.ok⟩
      ⟨CallResult.ok, CallResult.ok, some 42, CallResult.ok⟩ 42).2.2.2.1 rfl rfl
  · exact (c9_publish_phase (some 7)
      ⟨CallResult.ok, CallResult.ok, some 42, CallResult.err⟩
      ⟨CallResult.ok, CallResult.ok, some 42, CallResult.err⟩ 42).2.2.2.2 rfl rfl

/-! ## C4: the poll timer never defers (`main.js` lines 148-149) -/

/-- State of the poll loop: the number of `postTrending` invocations that
have started and not yet finished. -/
structure LoopState where
  active : ℕ
deriving DecidableEq

/-- Scheduler events.  `tick`: the interval timer fires; `main.js` line 148
registers `postTrending` itself as the handler, with no in-flight guard,
queue, or deferral anywhere in the script, so a tick always starts one
more invocation.  `finish`: some in-flight invocation settles. -/
inductive LoopEvent where
  | tick
  | finish
deriving DecidableEq

def loopStep (s : LoopState) (e : LoopEvent) : LoopState :=
  match e with
  | LoopEvent.tick => { active := s.active + 1 }
  | LoopEvent.finish => { active := s.active - 1 }

def runLoop (s : LoopState) (es : List LoopEvent) : LoopState := es.foldl loopStep s

def loopInit : LoopState := { active := 0 }

/-- C4 is false as stated: if the timer fires twice while the first cycle
is still in flight (slow upstream), two cycles are active at once — the
second trigger is started immediately, not deferred until the in-flight
cycle finishes. -/
theorem c4_counterexample :
    (runLoop loopInit [LoopEvent.tick, LoopEvent.tick]).active = 2 ∧
    ¬ (runLoop loopInit [LoopEvent.tick, LoopEvent.tick]).active ≤ 1 := by
  decide

/-- C4 (amended): `setInterval(postTrending, …)` starts a cycle on every
tick unconditionally — a tick increments the in-flight count whatever its
current value is, and a tick-only schedule of length `k` leaves `k` cycles
concurrently in flight.  (The single-threaded event loop interleaves their
steps at await points rather than running them in parallel, but the
cycles, and their retract/publish sequences, overlap.) -/
theorem c4_no_deferral (s : LoopState) (es : List LoopEvent) :
    (loopStep s LoopEvent.tick).active = s.active + 1 ∧
    ((∀ e ∈ es, e = LoopEvent.tick) → (runLoop loopInit es).active = es.length) := by
  have aux : ∀ (l : List LoopEvent) (s0 : LoopState), (∀ e ∈ l, e = LoopEvent.tick) →
      (runLoop s0 l).active = s0.active + l.length := by
    intro l
    induction l with
    | nil =>
        intro s0 _
        simp [runLoop]
    | cons e rest ih =>
        intro s0 hall
        have he : e = LoopEvent.tick := hall e (List.mem_cons_self e rest)
        subst he
        have hrec := ih { active := s0.active + 1 }
          (fun e2 he2 => hall e2 (List.mem_cons_of_mem _ he2))
        rw [runLoop] at hrec ⊢
        rw [List.foldl_cons]
        rw [show loopStep s0 LoopEvent.tick = { active := s0.active + 1 } from rfl, hrec]
        simp
        omega
  refine ⟨rfl, ?_⟩
  intro h
  have := aux es loopInit h
  simpa [loopInit] using this

theorem c4_no_deferral_witness :
    (loopStep loopInit LoopEvent.tick).active = loopInit.active + 1 ∧
    (runLoop loopInit [LoopEvent.tick, LoopEvent.tick]).active
      = ([LoopEvent.tick, LoopEvent.tick] : List LoopEvent).length := by
  exact ⟨(c4_no_deferral loopInit [LoopEvent.tick, LoopEvent.tick]).1,
    (c4_no_deferral loopInit [LoopEvent.tick, LoopEvent.tick]).2 (by decide)⟩

/-! ## C5: the burst snapshot across a cycle (V3, `main.js` lines 304-451) -/

/-- Newline, as used by the formatter's template strings. -/
def nlStr : String := "\n"

/-- JS `transactions.h24` of a GeckoTerminal pool. -/
structure TxH24 where
  buys : ℕ
  sells : ℕ
deriving DecidableEq

/-- The `attributes` record of a GeckoTerminal pool as V3 reads it
(flattened: `a.name`, `a.address`, `a.reserve_in_usd`, `a.volume_usd.h24`,
`a.transactions?.h24`, `a.price_change_percentage?.h24`,
`a.market_cap_usd`, `a.fdv_usd`). -/
structure GPool where
  name : String
  address : String
  reserveInUsd : Option ℚ
  volH24 : Option ℚ
  txH24 : Option TxH24
  priceChangeH24 : Option ℚ
  marketCapUsd : Option ℚ
  fdvUsd : Option ℚ
deriving DecidableEq

/-- The `lastVolumes` table (`main.js` line 320): address ↦ last observed
h24 volume. -/
abbrev VolMap := List (String × ℚ)

/-- JS `lastVolumes[k] ?? null`. -/
def volLookup (m : VolMap) (k : String) : Option ℚ :=
  match m with
  | [] => none
  | (k2, v) :: rest => if k2 = k then some v else volLookup rest k

/-- JS `lastVolumes[k] = v`. -/
def volSet (m : VolMap) (k : String) (v : ℚ) : VolMap :=
  match m with
  | [] => [(k, v)]
  | (k2, v2) :: rest => if k2 = k then (k2, v) :: rest else (k2, v2) :: volSet rest k v

/-- JS `fmtUsd` of V3 (`main.js` lines 322-328): `Number.isFinite` guard, then
the three bands; a finite numeric input passes the guard unchanged. -/
def fmtUsdV3 (n : ℚ) : String :=
  if 1000000 ≤ n then (r"$") ++ toFixed2 (n / 1000000) ++ "M"
  else if 1000 ≤ n then (r"$") ++ toFixed2 (n / 1000) ++ "K"
  else (r"$") ++ toFixed2 n

/-- JS `fmtUsd` applied to a possibly-missing field (`Number(undefined)` is
`NaN`, which the guard turns into `$0.00`). -/
def fmtUsdV3Opt (x : Option ℚ) : String :=
  match x with
  | some q => fmtUsdV3 q
  | none => "$0.00"

/-- JS `a || b` on a possibly-missing numeric value (0 is falsy). -/
def orFalsyQ (x : Option ℚ) (y : ℚ) : ℚ :=
  match x with
  | some q => if q = 0 then y else q
  | none => y

/-- One iteration of V3's `formatTrending` loop (`main.js` lines 370-399)
for pool `p` at 0-based index `i`, given the pool's previous-cycle volume:
returns the rendered block and the `currentVol` that the loop writes into
`lastVolumes[a.address]`. -/
def formatPoolV3 (prevVol : Option ℚ) (i : ℕ) (p : GPool) : String × ℚ :=
  let txs := p.txH24.getD ⟨0, 0⟩
  let change := toFixed2 (numOr0 p.priceChangeH24)
  let fdv := orFalsyQ p.marketCapUsd (orFalsyQ p.fdvUsd 0)
  let fdvLabel := if fdv = 0 then (r"") else (r"🏦 <b>FDV:</b> ") ++ fmtUsdV3 fdv ++ " | "
  let currentVol := numOr0 p.volH24
  let burst := match prevVol with
    | some pv => currentVol - pv
    | none => 0
  let burstLabel := if prevVol.isSome ∧ 0 < burst
    then (r"⚡ <b>Vol Burst:</b> +") ++ fmtUsdV3 burst ++ nlStr
    else (r"")
  let warningLabel := if txs.buys * 2 < txs.sells
    then (r"⚠️ <b>High Sell Pressure</b>") ++ nlStr
    else (r"")
  let link := "https://www.geckoterminal.com/besc-hyperchain/pools/" ++ p.address
  (toString (i + 1) ++ "️⃣ <b>" ++ p.name ++ "</b>" ++ nlStr ++
    burstLabel ++ warningLabel ++
    "💵 <b>Vol:</b> " ++ fmtUsdV3 currentVol ++ " | 💧 <b>LQ:</b> " ++
      fmtUsdV3Opt p.reserveInUsd ++ nlStr ++
    fdvLabel ++ "📈 <b>24h:</b> " ++ change ++ "% | 🛒 <b>Buys:</b> " ++ toString txs.buys ++
      " | 🔻 <b>Sells:</b> " ++ toString txs.sells ++ nlStr ++
    "<a href=\"" ++ link ++ "\">📊 View on GeckoTerminal</a>" ++ nlStr,
   currentVol)

/-- The `pools.forEach((p, i) => …)` of V3's `formatTrending`: threads the
`lastVolumes` table through the per-pool updates, in list order. -/
def formatLoopV3 : List GPool → ℕ → VolMap → List String → List String × VolMap
  | [], _, m, acc => (acc, m)
  | p :: rest, i, m, acc =>
      let pr := formatPoolV3 (volLookup m p.address) i p
      formatLoopV3 rest (i + 1) (volSet m p.address pr.2) (acc ++ [pr.1])

/-- JS `formatTrending` of V3 (`main.js` lines 360-402): the quiet-market
message on an empty list (no snapshot writes), otherwise the header lines
plus one block per pool, with `lastVolumes` updated for every listed
pool. -/
def formatTrendingV3 (pollMinutes : String) (lastVolumes : VolMap) (pools : List GPool) :
    String × VolMap :=
  if pools.isEmpty then
    ("😴 <b>No trending pools right now</b>" ++ nlStr ++ "🕒 Chain is quiet — check back soon!",
      lastVolumes)
  else
    let res := formatLoopV3 pools 0 lastVolumes []
    (String.intercalate nlStr
      (["🔥 <b>BESC HyperChain — Top " ++ toString pools.length ++ " Trending Pools</b>",
        "🕒 Snapshot: Last " ++ pollMinutes ++ " min" ++ nlStr] ++ res.1),
     res.2)

/-- The V3 controller's process-wide state (`main.js` lines 319-320). -/
structure V3State where
  lastPinnedId : Option ℕ
  lastVolumes : VolMap
deriving DecidableEq

/-- JS `postTrending` of V3 (`main.js` lines 404-447) as a state transformer.
`pools` is the already-fetched `fetchPools()` result; `hotCmp` is the
weighted-hotness comparator of lines 409-425 — it reads `lastVolumes` and
uses the transcendental `Math.log1p`, on which no claim depends, so the
embedding takes the resulting sort order as a parameter and the theorems
below hold for **every** comparator.  The sorted pools are sliced to `n`,
the message text is built — updating the snapshot — *before* `sendMessage`
is awaited (it is `sendMessage`'s argument), then the channel outcomes
decide the rest exactly as in `publishPhase`. -/
def postTrendingV3 (n : ℕ) (pollMinutes : String) (st : V3State) (pools : List GPool)
    (hotCmp : VolMap → GPool → GPool → Bool) (env : ChannelEnv) : V3State × Option ℕ :=
  let sorted := List.insertionSort (fun a b => hotCmp st.lastVolumes a b = true) pools
  let trending := sorted.take n
  let fmt := formatTrendingV3 pollMinutes st.lastVolumes trending
  match env.sendResult with
  | none => ({ st with lastVolumes := fmt.2 }, none)
  | some mid =>
    match env.pinResult with
    | CallResult.err => ({ st with lastVolumes := fmt.2 }, some mid)
    | CallResult.ok => ({ lastPinnedId := some mid, lastVolumes := fmt.2 }, some mid)

/-- Concrete pool for the C5 counterexample. -/
def c5pool : GPool :=
  { name := "A", address := "A", reserveInUsd := some 100, volH24 := some 1500,
    txH24 := some ⟨3, 1⟩, priceChangeH24 := some 1, marketCapUsd := none, fdvUsd := none }

/-- C5 is false as stated: a cycle whose publish fails (sendMessage
rejects, so the error reaches the cycle boundary) still leaves the
snapshot updated — pool A's entry moved from 1000 to 1500 during
formatting and is never rolled back, contradicting "left unchanged for
every pool". -/
theorem c5_counterexample :
    (postTrendingV3 5 (r"5") ⟨none, [((r"A"), 1000)]⟩ [c5pool] (fun _ _ _ => true)
        ⟨CallResult.ok, CallResult.ok, none, CallResult.ok⟩).1.lastVolumes
      = [((r"A"), 1500)] ∧
    ([((r"A"), 1500)] : VolMap) ≠ [((r"A"), 1000)] := by
  refine ⟨by decide, by decide⟩

/-- C5 (corrected): the snapshot is written during formatting, before the
publish attempt, and the writes are kept whatever the channel does: the
post-cycle `lastVolumes` equals the formatter's updated table, and is the
same whether the publish (or pin) succeeds or fails — a failed cycle's
per-pool updates are merged, not discarded.  (This matches the spec's own
"updated at the end of every cycle regardless of publish success".) -/
theorem c5_snapshot_survives_failure (n : ℕ) (pm : String) (st : V3State)
    (pools : List GPool) (hotCmp : VolMap → GPool → GPool → Bool) (env env2 : ChannelEnv) :
    (postTrendingV3 n pm st pools hotCmp env).1.lastVolumes =
      (formatTrendingV3 pm st.lastVolumes
        ((List.insertionSort (fun a b => hotCmp st.lastVolumes a b = true) pools).take n)).2 ∧
    (postTrendingV3 n pm st pools hotCmp env).1.lastVolumes =
      (postTrendingV3 n pm st pools hotCmp env2).1.lastVolumes := by
  obtain ⟨u1, d1, s1, p1⟩ := env
  obtain ⟨u2, d2, s2, p2⟩ := env2
  constructor
  · cases s1 with
    | none => rfl
    | some mid => cases p1 <;> rfl
  · cases s1 with
    | none =>
        cases s2 with
        | none => rfl
        | some mid2 => cases p2 <;> rfl
    | some mid =>
        cases p1 <;> cases s2 with
        | none => rfl
        | some mid2 => cases p2 <;> rfl

end BescTrending
